import Mathlib

/-!
# Shallow embedding of the skykeep-puzzle solver (src/src/main.rs)

This file embeds the reachability/backtracking search of the sliding-tile
puzzle solver and proves/refutes the specification claims about it.

Conventions of the embedding:
* `u8` tile indices become `Nat`; the partial-move conditions are copied
  verbatim from `do_move` in the source.
* The `OpenedGates` bitflags (a `u8` bitset) become `Nat` bit masks with
  the same constants; `bitflags`' `contains` is `a &&& b == b` and union
  is `|||`, exactly as in the Rust library.
* `follow_chain` takes an `FnMut` closure in the source; here the closure
  becomes a state-threading function `check : Entrance → Nat → σ → σ × Option T`
  and the loop becomes fuel-indexed structural recursion (the chain fuel
  `cf` is an explicit parameter everywhere; concrete statements use 40,
  far above the longest possible walk on a 3 × 3 grid).
* `verify_rec` is fuel-indexed on recursion depth.  `RecResult.fuelOut`
  marks fuel exhaustion and aborts the whole search when it occurs in a
  child; `RecResult.panicked` models the `.unwrap()` panic when no `Empty`
  room exists.  The debug `counter` argument of the source is omitted
  (it is printed only and has no effect on the result).
* `rooms[tile as usize]` indexing is modelled with `List.getD` with
  default `Room.Empty`; on every call path of the program the tile index
  stays in `0..9`, so the default is never consulted.
-/

namespace Skykeep

inductive Direction : Type where
  | Up : Direction
  | Left : Direction
  | Down : Direction
  | Right : Direction
deriving DecidableEq, Repr, Fintype

def Direction.opposite : Direction → Direction
  | .Up => .Down
  | .Left => .Right
  | .Down => .Up
  | .Right => .Left

inductive Room : Type where
  | Start : Room
  | Skyview : Room
  | EarthTemple : Room
  | LanayruMiningFacility : Room
  | MiniBoss : Room
  | AncientCistern : Room
  | FireSanctuary : Room
  | Sandship : Room
  | Empty : Room
deriving DecidableEq, Repr, Fintype

/-- `do_move(tile, direction)` from the source: neighbor tile in a 3 × 3
row-major grid together with the facing direction after the move. -/
def do_move (tile : Nat) (direction : Direction) : Option (Nat × Direction) :=
  match direction with
  | .Up => if tile < 3 then none else some (tile - 3, .Down)
  | .Left => if tile = 0 ∨ tile = 3 ∨ tile = 6 then none else some (tile - 1, .Right)
  | .Down => if tile ≥ 6 then none else some (tile + 3, .Up)
  | .Right => if tile = 2 ∨ tile = 5 ∨ tile = 8 then none else some (tile + 1, .Left)

/-- The `OpenedGates` bitflags of the source, as `Nat` bit masks. -/
def OpenedGates.STARTING : Nat := 1
def OpenedGates.EARTH_TEMPLE : Nat := 2
def OpenedGates.MINI_BOSS : Nat := 4
def OpenedGates.FIRE_SANCTUARY : Nat := 8
def OpenedGates.NON_EMPTY : Nat := 16

/-- `bitflags`' `self.contains(other)`: all bits of `other` are set in `self`. -/
def gatesContain (self other : Nat) : Bool := self &&& other == other

inductive Entrance : Type where
  | StartDown : Entrance
  | StartRight : Entrance
  | SkyviewLeft : Entrance
  | SkyviewUp : Entrance
  | EarthTempleRight : Entrance
  | EarthTempleDown : Entrance
  | LanayruMiningFacilityDown : Entrance
  | LanayruMiningFacilityUp : Entrance
  | MiniBossLeft : Entrance
  | MiniBossDown : Entrance
  | AncientCisternRight : Entrance
  | AncientCisternDown : Entrance
  | FireSanctuaryLeft : Entrance
  | FireSanctuaryRight : Entrance
  | SandshipLeft : Entrance
deriving DecidableEq, Repr, Fintype

/-- `Entrance::from_room_direction`. -/
def Entrance.from_room_direction (room : Room) (direction : Direction) : Option Entrance :=
  match room, direction with
  | .Start, .Down => some .StartDown
  | .Start, .Right => some .StartRight
  | .Skyview, .Up => some .SkyviewUp
  | .Skyview, .Left => some .SkyviewLeft
  | .EarthTemple, .Down => some .EarthTempleDown
  | .EarthTemple, .Right => some .EarthTempleRight
  | .LanayruMiningFacility, .Up => some .LanayruMiningFacilityUp
  | .LanayruMiningFacility, .Down => some .LanayruMiningFacilityDown
  | .MiniBoss, .Left => some .MiniBossLeft
  | .MiniBoss, .Down => some .MiniBossDown
  | .AncientCistern, .Down => some .AncientCisternDown
  | .AncientCistern, .Right => some .AncientCisternRight
  | .FireSanctuary, .Left => some .FireSanctuaryLeft
  | .FireSanctuary, .Right => some .FireSanctuaryRight
  | .Sandship, .Left => some .SandshipLeft
  | _, _ => none

/-- `Entrance::traverse_room`: the same-room internal link, possibly gated. -/
def Entrance.traverse_room (e : Entrance) (gates : Nat) : Option Entrance :=
  match e with
  | .StartDown => some .StartRight
  | .StartRight => if gatesContain gates OpenedGates.STARTING then some .StartDown else none
  | .SkyviewLeft => some .SkyviewUp
  | .SkyviewUp => some .SkyviewLeft
  | .EarthTempleRight =>
      if gatesContain gates OpenedGates.EARTH_TEMPLE then some .EarthTempleDown else none
  | .EarthTempleDown => some .EarthTempleRight
  | .LanayruMiningFacilityDown => some .LanayruMiningFacilityUp
  | .LanayruMiningFacilityUp => some .LanayruMiningFacilityDown
  | .MiniBossLeft => if gatesContain gates OpenedGates.MINI_BOSS then some .MiniBossDown else none
  | .MiniBossDown => some .MiniBossLeft
  | .AncientCisternRight => some .AncientCisternDown
  | .AncientCisternDown => some .AncientCisternRight
  | .FireSanctuaryLeft =>
      if gatesContain gates OpenedGates.FIRE_SANCTUARY then some .FireSanctuaryRight else none
  | .FireSanctuaryRight => some .FireSanctuaryLeft
  | .SandshipLeft => none

/-- `Entrance::to_room_direction`. -/
def Entrance.to_room_direction : Entrance → Room × Direction
  | .StartDown => (.Start, .Down)
  | .StartRight => (.Start, .Right)
  | .SkyviewUp => (.Skyview, .Up)
  | .SkyviewLeft => (.Skyview, .Left)
  | .EarthTempleDown => (.EarthTemple, .Down)
  | .EarthTempleRight => (.EarthTemple, .Right)
  | .LanayruMiningFacilityUp => (.LanayruMiningFacility, .Up)
  | .LanayruMiningFacilityDown => (.LanayruMiningFacility, .Down)
  | .MiniBossLeft => (.MiniBoss, .Left)
  | .MiniBossDown => (.MiniBoss, .Down)
  | .AncientCisternDown => (.AncientCistern, .Down)
  | .AncientCisternRight => (.AncientCistern, .Right)
  | .FireSanctuaryLeft => (.FireSanctuary, .Left)
  | .FireSanctuaryRight => (.FireSanctuary, .Right)
  | .SandshipLeft => (.Sandship, .Left)

/-- `Entrance::has_control_panel`. -/
def Entrance.has_control_panel : Entrance → Bool
  | .StartRight | .LanayruMiningFacilityDown | .EarthTempleDown | .MiniBossLeft => true
  | _ => false

/-- `Entrance::open_gate`. -/
def Entrance.open_gate : Entrance → Option Nat
  | .StartDown => some OpenedGates.STARTING
  | .EarthTempleDown => some OpenedGates.EARTH_TEMPLE
  | .MiniBossDown => some OpenedGates.MINI_BOSS
  | .FireSanctuaryRight => some OpenedGates.FIRE_SANCTUARY
  | _ => none

/-- `follow_chain` from the source.  The `FnMut` closure becomes the
state-threading `check`; the unbounded `loop` becomes recursion on the
chain fuel (first explicit argument after `check`). -/
def followChain {σ T : Type} (check : Entrance → Nat → σ → σ × Option T) :
    Nat → List Room → Nat → Nat → Direction → σ → σ × Option T
  | 0, _, _, _, _, s => (s, none)
  | cf + 1, rooms, gates, tile, direction, s =>
    match Entrance.from_room_direction (rooms.getD tile Room.Empty) direction with
    | none => (s, none)
    | some pos =>
      match check pos tile s with
      | (s1, some val) => (s1, some val)
      | (s1, none) =>
        match pos.traverse_room gates with
        | none => (s1, none)
        | some pos2 =>
          match check pos2 tile s1 with
          | (s2, some val) => (s2, some val)
          | (s2, none) =>
            match do_move tile pos2.to_room_direction.2 with
            | none => (s2, none)
            | some (tile2, dir2) => followChain check cf rooms gates tile2 dir2 s2

/-- `follow_chain_both`: the direct walk first, then — if it found
nothing — the walk restarted one tile further along the direction. -/
def followChainBoth {σ T : Type} (check : Entrance → Nat → σ → σ × Option T)
    (cf : Nat) (rooms : List Room) (gates : Nat) (tile : Nat) (direction : Direction)
    (s : σ) : σ × Option T :=
  match followChain check cf rooms gates tile direction s with
  | (s1, some val) => (s1, some val)
  | (s1, none) =>
    match do_move tile direction with
    | some (tile2, dir2) => followChain check cf rooms gates tile2 dir2 s1
    | none => (s1, none)

/-- The `RoomAndPos` memo key: grid permutation plus player position. -/
structure RoomAndPos : Type where
  rooms : List Room
  pos_tile : Nat
  pos_direction : Direction
deriving DecidableEq, Repr

/-- The `HashMap<RoomAndPos, OpenedGates>` memo table as an association
list; `verify_rec` only ever inserts fresh keys, so a cons suffices. -/
def memoLookup (rp : RoomAndPos) : List (RoomAndPos × Nat) → Option Nat
  | [] => none
  | (k, v) :: rest => if k = rp then some v else memoLookup rp rest

/-- The mutable state threaded through the search: the memo table and the
not-yet-visited entrance set (a `HashSet` in the source, a duplicate-free
list here). -/
structure SearchSt : Type where
  state_to_gate : List (RoomAndPos × Nat)
  unreachable_entrances : List Entrance
deriving DecidableEq, Repr

inductive Operations : Type where
  | ReachMoverStart : Operations
  | ReachMoverLanayruMiningFacility : Operations
  | ReachMoverEarthTemple : Operations
  | ReachMoverMiniBoss : Operations
  | MoveUp : Operations
  | MoveLeft : Operations
  | MoveDown : Operations
  | MoveRight : Operations
deriving DecidableEq, Repr

/-- `enum_iterator::all::<Operations>()` — declaration order. -/
def allOperations : List Operations :=
  [.ReachMoverStart, .ReachMoverLanayruMiningFacility, .ReachMoverEarthTemple,
   .ReachMoverMiniBoss, .MoveUp, .MoveLeft, .MoveDown, .MoveRight]

/-- `enum_iterator::all::<Entrance>()` — declaration order. -/
def allEntrances : List Entrance :=
  [.StartDown, .StartRight, .SkyviewLeft, .SkyviewUp, .EarthTempleRight,
   .EarthTempleDown, .LanayruMiningFacilityDown, .LanayruMiningFacilityUp,
   .MiniBossLeft, .MiniBossDown, .AncientCisternRight, .AncientCisternDown,
   .FireSanctuaryLeft, .FireSanctuaryRight, .SandshipLeft]

/-- The scan closure of `verify_rec` (source lines 318-324): accumulate
opened gate bits and remove every visited entrance from the unreachable
set; always continue the walk. -/
def scanCheck (e : Entrance) (_tile : Nat) (s : Nat × List Entrance) :
    (Nat × List Entrance) × Option PUnit :=
  (((match e.open_gate with
     | some gate => s.1 ||| gate
     | none => s.1), s.2.erase e), none)

/-- The gate-opening pre-scan closure of `verify_rooms` (lines 277-282). -/
def preScanCheck (e : Entrance) (_tile : Nat) (g : Nat) : Nat × Option PUnit :=
  ((match e.open_gate with
    | some gate => g ||| gate
    | none => g), none)

/-- The control-panel search closure of `verify_rooms` (lines 268-270). -/
def panelCheck (e : Entrance) (tile : Nat) (s : PUnit) : PUnit × Option (Entrance × Nat) :=
  (s, if e.has_control_panel then some (e, tile) else none)

/-- The reach-operator search in `verify_rec`:
`follow_chain_both(.., |e, panel_tile| (e == target).then_some(panel_tile))`. -/
def followBothFind (cf : Nat) (rooms : List Room) (gates : Nat) (tile : Nat)
    (direction : Direction) (target : Entrance) : Option Nat :=
  (followChainBoth (fun e t _ => (PUnit.unit, if e = target then some t else none))
    cf rooms gates tile direction PUnit.unit).2

/-- Result of applying one operator: a new state, inapplicability, or the
`unwrap` panic of the move operators when no `Empty` room exists. -/
inductive OpResult : Type where
  | applied : RoomAndPos → OpResult
  | notApplicable : OpResult
  | panicked : OpResult
deriving DecidableEq, Repr

/-- `Vec::swap(i, j)` on the room list. -/
def listSwap (l : List Room) (i j : Nat) : List Room :=
  (l.set i (l.getD j Room.Empty)).set j (l.getD i Room.Empty)

/-- One reach-operator arm of `verify_rec` (lines 344-383): search for
the target entrance from the current position; on success relocate the
player to `(found tile, Down)`. -/
def reachOperation (cf : Nat) (target : Entrance) (rp : RoomAndPos) (gates : Nat) : OpResult :=
  match followBothFind cf rp.rooms gates rp.pos_tile rp.pos_direction target with
  | some panel_tile => .applied ⟨rp.rooms, panel_tile, .Down⟩
  | none => .notApplicable

/-- One move-operator arm of `verify_rec` (lines 384-432): find the tile
holding `Empty`, take its neighbor in direction `d`, and swap the two
tiles unless the neighbor is missing or is the player's tile. -/
def moveOperation (rp : RoomAndPos) (d : Direction) : OpResult :=
  match rp.rooms.findIdx? (· == Room.Empty) with
  | none => .panicked
  | some empty_tile =>
    match do_move empty_tile d with
    | none => .notApplicable
    | some (other_tile, _) =>
      if other_tile = rp.pos_tile then .notApplicable
      else .applied ⟨listSwap rp.rooms other_tile empty_tile, rp.pos_tile, rp.pos_direction⟩

/-- The operator dispatch of `verify_rec`'s `match operation`.  Each arm
instantiates `reachOperation`/`moveOperation` with exactly the target
entrance / `do_move` direction hard-coded in the source. -/
def applyOperation (cf : Nat) (op : Operations) (rp : RoomAndPos) (gates : Nat) : OpResult :=
  match op with
  | .ReachMoverStart => reachOperation cf .StartDown rp gates
  | .ReachMoverLanayruMiningFacility => reachOperation cf .LanayruMiningFacilityDown rp gates
  | .ReachMoverEarthTemple => reachOperation cf .EarthTempleDown rp gates
  | .ReachMoverMiniBoss => reachOperation cf .MiniBossLeft rp gates
  | .MoveUp => moveOperation rp .Down
  | .MoveLeft => moveOperation rp .Right
  | .MoveDown => moveOperation rp .Up
  | .MoveRight => moveOperation rp .Left

/-- Outcome of `verify_rec`: the boolean verdict plus final search state,
the `unwrap` panic, or recursion-fuel exhaustion (which aborts the run). -/
inductive RecResult : Type where
  | ok : Bool → SearchSt → RecResult
  | panicked : RecResult
  | fuelOut : RecResult
deriving DecidableEq, Repr

/-- The `for operation in enum_iterator::all::<Operations>()` loop of
`verify_rec`: try each operator in order, recursing (through `f`) into
every applicable one, short-circuiting on `true`. -/
def opsLoop (f : SearchSt → RoomAndPos → Nat → RecResult) (cf : Nat) :
    List Operations → RoomAndPos → Nat → SearchSt → RecResult
  | [], _, _, st => .ok false st
  | op :: rest, rp, gates, st =>
    match applyOperation cf op rp gates with
    | .panicked => .panicked
    | .notApplicable => opsLoop f cf rest rp gates st
    | .applied rp2 =>
      match f st rp2 gates with
      | .fuelOut => .fuelOut
      | .panicked => .panicked
      | .ok true st2 => .ok true st2
      | .ok false st2 => opsLoop f cf rest rp gates st2

/-- `verify_rec` (source lines 309-436), fuel-indexed on recursion depth.
Per call: scan from the fixed entry `(tile 7, Down)` with the incoming
gates as traversal snapshot, report solvable if no entrance remains
unreachable, then consult the memo table and run the operator loop. -/
def verify_rec (cf : Nat) : Nat → SearchSt → RoomAndPos → Nat → RecResult
  | 0, _, _, _ => .fuelOut
  | fuel + 1, st, rp, gates =>
    let scanned := followChain scanCheck cf rp.rooms gates 7 .Down
      (gates, st.unreachable_entrances)
    let gates1 := scanned.1.1
    let unreach1 := scanned.1.2
    if unreach1.isEmpty then .ok true ⟨st.state_to_gate, unreach1⟩
    else
      match memoLookup rp st.state_to_gate with
      | some stored =>
        if gatesContain stored gates1 then .ok false ⟨st.state_to_gate, unreach1⟩
        else opsLoop (verify_rec cf fuel) cf allOperations rp stored
          ⟨st.state_to_gate, unreach1⟩
      | none =>
        opsLoop (verify_rec cf fuel) cf allOperations rp gates1
          ⟨(rp, gates1) :: st.state_to_gate, unreach1⟩

/-- Overall outcome of `verify_rooms`; the printed `beatable` boolean is
surfaced as `solvable`/`unsolvable`, the two `Err` returns as
`structuralFailure` with the source's message strings. -/
inductive SolveResult : Type where
  | solvable : SolveResult
  | unsolvable : SolveResult
  | structuralFailure : String → SolveResult
  | panicked : SolveResult
  | fuelOut : SolveResult
deriving DecidableEq, Repr

/-- `verify_rooms` (source lines 260-303): entry-entrance check, panel
search, gate pre-scan, then the recursive search from the panel position. -/
def verify_rooms (cf fuel : Nat) (rooms : List Room) : SolveResult :=
  match Entrance.from_room_direction (rooms.getD 7 Room.Empty) .Down with
  | none => .structuralFailure "no down first room"
  | some _ =>
    match (followChain panelCheck cf rooms 0 7 .Down PUnit.unit).2 with
    | none => .structuralFailure "no control panel"
    | some (panel, panel_tile) =>
      let gates := (followChain preScanCheck cf rooms OpenedGates.NON_EMPTY 7 .Down
        OpenedGates.NON_EMPTY).1
      match verify_rec cf fuel ⟨[], allEntrances⟩
          ⟨rooms, panel_tile, panel.to_room_direction.2⟩ gates with
      | .fuelOut => .fuelOut
      | .panicked => .panicked
      | .ok b _ => if b then .solvable else .unsolvable

/-- A collecting predicate that records every visited entrance and never
stops the walk. -/
def visitCheck (e : Entrance) (_tile : Nat) (l : List Entrance) :
    List Entrance × Option PUnit :=
  (l ++ [e], none)

/-- The entrances visited by one chain walk, in visit order: the same
`followChain` instantiated with the collecting predicate. -/
def chainVisits (cf : Nat) (rooms : List Room) (gates : Nat) (tile : Nat)
    (direction : Direction) : List Entrance :=
  (followChain visitCheck cf rooms gates tile direction []).1

/-- Folding the gate bits opened by a list of visited entrances. -/
def opensFold (l : List Entrance) (g : Nat) : Nat :=
  l.foldl (fun acc e =>
    match e.open_gate with
    | some gate => acc ||| gate
    | none => acc) g

/-- Removing a list of visited entrances from the unreachable set. -/
def eraseList (u : List Entrance) (l : List Entrance) : List Entrance :=
  l.foldl (fun acc e => acc.erase e) u

/-- The initial grid from which the search (replayed faithfully outside
Lean) reaches the looping configuration below. -/
def cycleGrid : List Room :=
  [Room.EarthTemple, Room.AncientCistern, Room.Skyview, Room.MiniBoss, Room.Sandship, Room.Empty, Room.FireSanctuary, Room.LanayruMiningFacility, Room.Start]

/-- Grid of the looping state A. -/
def cycleRoomsA : List Room :=
  [Room.EarthTemple, Room.AncientCistern, Room.Skyview, Room.FireSanctuary, Room.MiniBoss, Room.Sandship, Room.LanayruMiningFacility, Room.Empty, Room.Start]

/-- Grid of the looping state B: `cycleRoomsA` with tiles 6 and 7 swapped
(the `MoveRight` operator applied at state A). -/
def cycleRoomsB : List Room :=
  [Room.EarthTemple, Room.AncientCistern, Room.Skyview, Room.FireSanctuary, Room.MiniBoss, Room.Sandship, Room.Empty, Room.LanayruMiningFacility, Room.Start]

/-- The memo table at the moment the search enters the loop (87 entries,
never consulted keys omittable but kept exactly as built by the search). -/
def cycleMemo : List (RoomAndPos × Nat) :=
[
  (RoomAndPos.mk [Room.EarthTemple, Room.AncientCistern, Room.Skyview, Room.MiniBoss, Room.Sandship, Room.Empty, Room.FireSanctuary, Room.LanayruMiningFacility, Room.Start] 7 Direction.Down, 16),
  (RoomAndPos.mk [Room.EarthTemple, Room.AncientCistern, Room.Skyview, Room.MiniBoss, Room.Sandship, Room.Start, Room.FireSanctuary, Room.LanayruMiningFacility, Room.Empty] 7 Direction.Down, 16),
  (RoomAndPos.mk [Room.EarthTemple, Room.AncientCistern, Room.Empty, Room.MiniBoss, Room.Sandship, Room.Skyview, Room.FireSanctuary, Room.LanayruMiningFacility, Room.Start] 7 Direction.Down, 16),
  (RoomAndPos.mk [Room.EarthTemple, Room.Empty, Room.AncientCistern, Room.MiniBoss, Room.Sandship, Room.Skyview, Room.FireSanctuary, Room.LanayruMiningFacility, Room.Start] 7 Direction.Down, 16),
  (RoomAndPos.mk [Room.EarthTemple, Room.Sandship, Room.AncientCistern, Room.MiniBoss, Room.Empty, Room.Skyview, Room.FireSanctuary, Room.LanayruMiningFacility, Room.Start] 7 Direction.Down, 16),
  (RoomAndPos.mk [Room.EarthTemple, Room.Sandship, Room.AncientCistern, Room.MiniBoss, Room.Skyview, Room.Empty, Room.FireSanctuary, Room.LanayruMiningFacility, Room.Start] 7 Direction.Down, 16),
  (RoomAndPos.mk [Room.EarthTemple, Room.Sandship, Room.AncientCistern, Room.MiniBoss, Room.Skyview, Room.Start, Room.FireSanctuary, Room.LanayruMiningFacility, Room.Empty] 7 Direction.Down, 16),
  (RoomAndPos.mk [Room.EarthTemple, Room.Sandship, Room.Empty, Room.MiniBoss, Room.Skyview, Room.AncientCistern, Room.FireSanctuary, Room.LanayruMiningFacility, Room.Start] 7 Direction.Down, 16),
  (RoomAndPos.mk [Room.EarthTemple, Room.Empty, Room.Sandship, Room.MiniBoss, Room.Skyview, Room.AncientCistern, Room.FireSanctuary, Room.LanayruMiningFacility, Room.Start] 7 Direction.Down, 16),
  (RoomAndPos.mk [Room.EarthTemple, Room.Skyview, Room.Sandship, Room.MiniBoss, Room.Empty, Room.AncientCistern, Room.FireSanctuary, Room.LanayruMiningFacility, Room.Start] 7 Direction.Down, 16),
  (RoomAndPos.mk [Room.EarthTemple, Room.Skyview, Room.Sandship, Room.MiniBoss, Room.AncientCistern, Room.Empty, Room.FireSanctuary, Room.LanayruMiningFacility, Room.Start] 7 Direction.Down, 16),
  (RoomAndPos.mk [Room.EarthTemple, Room.Skyview, Room.Sandship, Room.MiniBoss, Room.AncientCistern, Room.Start, Room.FireSanctuary, Room.LanayruMiningFacility, Room.Empty] 7 Direction.Down, 16),
  (RoomAndPos.mk [Room.EarthTemple, Room.Skyview, Room.Empty, Room.MiniBoss, Room.AncientCistern, Room.Sandship, Room.FireSanctuary, Room.LanayruMiningFacility, Room.Start] 7 Direction.Down, 16),
  (RoomAndPos.mk [Room.EarthTemple, Room.Empty, Room.Skyview, Room.MiniBoss, Room.AncientCistern, Room.Sandship, Room.FireSanctuary, Room.LanayruMiningFacility, Room.Start] 7 Direction.Down, 16),
  (RoomAndPos.mk [Room.EarthTemple, Room.AncientCistern, Room.Skyview, Room.MiniBoss, Room.Empty, Room.Sandship, Room.FireSanctuary, Room.LanayruMiningFacility, Room.Start] 7 Direction.Down, 16),
  (RoomAndPos.mk [Room.EarthTemple, Room.AncientCistern, Room.Skyview, Room.Empty, Room.MiniBoss, Room.Sandship, Room.FireSanctuary, Room.LanayruMiningFacility, Room.Start] 7 Direction.Down, 20),
  (RoomAndPos.mk [Room.EarthTemple, Room.AncientCistern, Room.Skyview, Room.Empty, Room.MiniBoss, Room.Sandship, Room.FireSanctuary, Room.LanayruMiningFacility, Room.Start] 4 Direction.Down, 20),
  (RoomAndPos.mk [Room.EarthTemple, Room.AncientCistern, Room.Skyview, Room.FireSanctuary, Room.MiniBoss, Room.Sandship, Room.Empty, Room.LanayruMiningFacility, Room.Start] 4 Direction.Down, 28),
  (RoomAndPos.mk [Room.EarthTemple, Room.AncientCistern, Room.Skyview, Room.FireSanctuary, Room.MiniBoss, Room.Sandship, Room.Empty, Room.LanayruMiningFacility, Room.Start] 7 Direction.Down, 28),
  (RoomAndPos.mk [Room.Empty, Room.AncientCistern, Room.Skyview, Room.EarthTemple, Room.MiniBoss, Room.Sandship, Room.FireSanctuary, Room.LanayruMiningFacility, Room.Start] 7 Direction.Down, 20),
  (RoomAndPos.mk [Room.Empty, Room.AncientCistern, Room.Skyview, Room.EarthTemple, Room.MiniBoss, Room.Sandship, Room.FireSanctuary, Room.LanayruMiningFacility, Room.Start] 4 Direction.Down, 20),
  (RoomAndPos.mk [Room.AncientCistern, Room.Empty, Room.Skyview, Room.EarthTemple, Room.MiniBoss, Room.Sandship, Room.FireSanctuary, Room.LanayruMiningFacility, Room.Start] 4 Direction.Down, 20),
  (RoomAndPos.mk [Room.AncientCistern, Room.Empty, Room.Skyview, Room.EarthTemple, Room.MiniBoss, Room.Sandship, Room.FireSanctuary, Room.LanayruMiningFacility, Room.Start] 7 Direction.Down, 20),
  (RoomAndPos.mk [Room.AncientCistern, Room.MiniBoss, Room.Skyview, Room.EarthTemple, Room.Empty, Room.Sandship, Room.FireSanctuary, Room.LanayruMiningFacility, Room.Start] 7 Direction.Down, 20),
  (RoomAndPos.mk [Room.AncientCistern, Room.MiniBoss, Room.Skyview, Room.EarthTemple, Room.Sandship, Room.Empty, Room.FireSanctuary, Room.LanayruMiningFacility, Room.Start] 7 Direction.Down, 20),
  (RoomAndPos.mk [Room.AncientCistern, Room.MiniBoss, Room.Skyview, Room.EarthTemple, Room.Sandship, Room.Start, Room.FireSanctuary, Room.LanayruMiningFacility, Room.Empty] 7 Direction.Down, 20),
  (RoomAndPos.mk [Room.AncientCistern, Room.MiniBoss, Room.Empty, Room.EarthTemple, Room.Sandship, Room.Skyview, Room.FireSanctuary, Room.LanayruMiningFacility, Room.Start] 7 Direction.Down, 20),
  (RoomAndPos.mk [Room.AncientCistern, Room.Empty, Room.MiniBoss, Room.EarthTemple, Room.Sandship, Room.Skyview, Room.FireSanctuary, Room.LanayruMiningFacility, Room.Start] 7 Direction.Down, 20),
  (RoomAndPos.mk [Room.AncientCistern, Room.Sandship, Room.MiniBoss, Room.EarthTemple, Room.Empty, Room.Skyview, Room.FireSanctuary, Room.LanayruMiningFacility, Room.Start] 7 Direction.Down, 20),
  (RoomAndPos.mk [Room.AncientCistern, Room.Sandship, Room.MiniBoss, Room.EarthTemple, Room.Skyview, Room.Empty, Room.FireSanctuary, Room.LanayruMiningFacility, Room.Start] 7 Direction.Down, 20),
  (RoomAndPos.mk [Room.AncientCistern, Room.Sandship, Room.MiniBoss, Room.EarthTemple, Room.Skyview, Room.Start, Room.FireSanctuary, Room.LanayruMiningFacility, Room.Empty] 7 Direction.Down, 20),
  (RoomAndPos.mk [Room.AncientCistern, Room.Sandship, Room.Empty, Room.EarthTemple, Room.Skyview, Room.MiniBoss, Room.FireSanctuary, Room.LanayruMiningFacility, Room.Start] 7 Direction.Down, 20),
  (RoomAndPos.mk [Room.AncientCistern, Room.Empty, Room.Sandship, Room.EarthTemple, Room.Skyview, Room.MiniBoss, Room.FireSanctuary, Room.LanayruMiningFacility, Room.Start] 7 Direction.Down, 20),
  (RoomAndPos.mk [Room.AncientCistern, Room.Skyview, Room.Sandship, Room.EarthTemple, Room.Empty, Room.MiniBoss, Room.FireSanctuary, Room.LanayruMiningFacility, Room.Start] 7 Direction.Down, 20),
  (RoomAndPos.mk [Room.AncientCistern, Room.Skyview, Room.Sandship, Room.EarthTemple, Room.MiniBoss, Room.Empty, Room.FireSanctuary, Room.LanayruMiningFacility, Room.Start] 7 Direction.Down, 20),
  (RoomAndPos.mk [Room.AncientCistern, Room.Skyview, Room.Sandship, Room.EarthTemple, Room.MiniBoss, Room.Empty, Room.FireSanctuary, Room.LanayruMiningFacility, Room.Start] 4 Direction.Down, 20),
  (RoomAndPos.mk [Room.AncientCistern, Room.Skyview, Room.Sandship, Room.EarthTemple, Room.MiniBoss, Room.Start, Room.FireSanctuary, Room.LanayruMiningFacility, Room.Empty] 4 Direction.Down, 20),
  (RoomAndPos.mk [Room.AncientCistern, Room.Skyview, Room.Sandship, Room.EarthTemple, Room.MiniBoss, Room.Start, Room.FireSanctuary, Room.LanayruMiningFacility, Room.Empty] 7 Direction.Down, 20),
  (RoomAndPos.mk [Room.AncientCistern, Room.Skyview, Room.Sandship, Room.EarthTemple, Room.MiniBoss, Room.Start, Room.FireSanctuary, Room.Empty, Room.LanayruMiningFacility] 4 Direction.Down, 20),
  (RoomAndPos.mk [Room.AncientCistern, Room.Skyview, Room.Sandship, Room.EarthTemple, Room.MiniBoss, Room.Start, Room.Empty, Room.FireSanctuary, Room.LanayruMiningFacility] 4 Direction.Down, 20),
  (RoomAndPos.mk [Room.AncientCistern, Room.Skyview, Room.Sandship, Room.Empty, Room.MiniBoss, Room.Start, Room.EarthTemple, Room.FireSanctuary, Room.LanayruMiningFacility] 4 Direction.Down, 20),
  (RoomAndPos.mk [Room.Empty, Room.Skyview, Room.Sandship, Room.AncientCistern, Room.MiniBoss, Room.Start, Room.EarthTemple, Room.FireSanctuary, Room.LanayruMiningFacility] 4 Direction.Down, 20),
  (RoomAndPos.mk [Room.Skyview, Room.Empty, Room.Sandship, Room.AncientCistern, Room.MiniBoss, Room.Start, Room.EarthTemple, Room.FireSanctuary, Room.LanayruMiningFacility] 4 Direction.Down, 20),
  (RoomAndPos.mk [Room.Skyview, Room.Sandship, Room.Empty, Room.AncientCistern, Room.MiniBoss, Room.Start, Room.EarthTemple, Room.FireSanctuary, Room.LanayruMiningFacility] 4 Direction.Down, 20),
  (RoomAndPos.mk [Room.Skyview, Room.Sandship, Room.Start, Room.AncientCistern, Room.MiniBoss, Room.Empty, Room.EarthTemple, Room.FireSanctuary, Room.LanayruMiningFacility] 4 Direction.Down, 20),
  (RoomAndPos.mk [Room.Skyview, Room.Sandship, Room.Start, Room.AncientCistern, Room.MiniBoss, Room.LanayruMiningFacility, Room.EarthTemple, Room.FireSanctuary, Room.Empty] 4 Direction.Down, 20),
  (RoomAndPos.mk [Room.Skyview, Room.Sandship, Room.Start, Room.AncientCistern, Room.MiniBoss, Room.LanayruMiningFacility, Room.EarthTemple, Room.Empty, Room.FireSanctuary] 4 Direction.Down, 20),
  (RoomAndPos.mk [Room.Skyview, Room.Sandship, Room.Start, Room.AncientCistern, Room.MiniBoss, Room.LanayruMiningFacility, Room.Empty, Room.EarthTemple, Room.FireSanctuary] 4 Direction.Down, 22),
  (RoomAndPos.mk [Room.Skyview, Room.Sandship, Room.Start, Room.Empty, Room.MiniBoss, Room.LanayruMiningFacility, Room.AncientCistern, Room.EarthTemple, Room.FireSanctuary] 4 Direction.Down, 22),
  (RoomAndPos.mk [Room.Empty, Room.Sandship, Room.Start, Room.Skyview, Room.MiniBoss, Room.LanayruMiningFacility, Room.AncientCistern, Room.EarthTemple, Room.FireSanctuary] 4 Direction.Down, 22),
  (RoomAndPos.mk [Room.Sandship, Room.Empty, Room.Start, Room.Skyview, Room.MiniBoss, Room.LanayruMiningFacility, Room.AncientCistern, Room.EarthTemple, Room.FireSanctuary] 4 Direction.Down, 22),
  (RoomAndPos.mk [Room.Sandship, Room.Start, Room.Empty, Room.Skyview, Room.MiniBoss, Room.LanayruMiningFacility, Room.AncientCistern, Room.EarthTemple, Room.FireSanctuary] 4 Direction.Down, 22),
  (RoomAndPos.mk [Room.Sandship, Room.Start, Room.LanayruMiningFacility, Room.Skyview, Room.MiniBoss, Room.Empty, Room.AncientCistern, Room.EarthTemple, Room.FireSanctuary] 4 Direction.Down, 22),
  (RoomAndPos.mk [Room.Sandship, Room.Start, Room.LanayruMiningFacility, Room.Skyview, Room.MiniBoss, Room.FireSanctuary, Room.AncientCistern, Room.EarthTemple, Room.Empty] 4 Direction.Down, 22),
  (RoomAndPos.mk [Room.Sandship, Room.Start, Room.LanayruMiningFacility, Room.Skyview, Room.MiniBoss, Room.FireSanctuary, Room.AncientCistern, Room.Empty, Room.EarthTemple] 4 Direction.Down, 22),
  (RoomAndPos.mk [Room.Sandship, Room.Start, Room.LanayruMiningFacility, Room.Skyview, Room.MiniBoss, Room.FireSanctuary, Room.Empty, Room.AncientCistern, Room.EarthTemple] 4 Direction.Down, 22),
  (RoomAndPos.mk [Room.Sandship, Room.Start, Room.LanayruMiningFacility, Room.Empty, Room.MiniBoss, Room.FireSanctuary, Room.Skyview, Room.AncientCistern, Room.EarthTemple] 4 Direction.Down, 22),
  (RoomAndPos.mk [Room.Empty, Room.Start, Room.LanayruMiningFacility, Room.Sandship, Room.MiniBoss, Room.FireSanctuary, Room.Skyview, Room.AncientCistern, Room.EarthTemple] 4 Direction.Down, 22),
  (RoomAndPos.mk [Room.Start, Room.Empty, Room.LanayruMiningFacility, Room.Sandship, Room.MiniBoss, Room.FireSanctuary, Room.Skyview, Room.AncientCistern, Room.EarthTemple] 4 Direction.Down, 22),
  (RoomAndPos.mk [Room.Start, Room.LanayruMiningFacility, Room.Empty, Room.Sandship, Room.MiniBoss, Room.FireSanctuary, Room.Skyview, Room.AncientCistern, Room.EarthTemple] 4 Direction.Down, 22),
  (RoomAndPos.mk [Room.Start, Room.LanayruMiningFacility, Room.FireSanctuary, Room.Sandship, Room.MiniBoss, Room.Empty, Room.Skyview, Room.AncientCistern, Room.EarthTemple] 4 Direction.Down, 22),
  (RoomAndPos.mk [Room.Start, Room.LanayruMiningFacility, Room.FireSanctuary, Room.Sandship, Room.MiniBoss, Room.EarthTemple, Room.Skyview, Room.AncientCistern, Room.Empty] 4 Direction.Down, 22),
  (RoomAndPos.mk [Room.Start, Room.LanayruMiningFacility, Room.FireSanctuary, Room.Sandship, Room.MiniBoss, Room.EarthTemple, Room.Skyview, Room.Empty, Room.AncientCistern] 4 Direction.Down, 22),
  (RoomAndPos.mk [Room.Start, Room.LanayruMiningFacility, Room.FireSanctuary, Room.Sandship, Room.MiniBoss, Room.EarthTemple, Room.Empty, Room.Skyview, Room.AncientCistern] 4 Direction.Down, 22),
  (RoomAndPos.mk [Room.Start, Room.LanayruMiningFacility, Room.FireSanctuary, Room.Empty, Room.MiniBoss, Room.EarthTemple, Room.Sandship, Room.Skyview, Room.AncientCistern] 4 Direction.Down, 22),
  (RoomAndPos.mk [Room.Empty, Room.LanayruMiningFacility, Room.FireSanctuary, Room.Start, Room.MiniBoss, Room.EarthTemple, Room.Sandship, Room.Skyview, Room.AncientCistern] 4 Direction.Down, 22),
  (RoomAndPos.mk [Room.LanayruMiningFacility, Room.Empty, Room.FireSanctuary, Room.Start, Room.MiniBoss, Room.EarthTemple, Room.Sandship, Room.Skyview, Room.AncientCistern] 4 Direction.Down, 22),
  (RoomAndPos.mk [Room.LanayruMiningFacility, Room.FireSanctuary, Room.Empty, Room.Start, Room.MiniBoss, Room.EarthTemple, Room.Sandship, Room.Skyview, Room.AncientCistern] 4 Direction.Down, 22),
  (RoomAndPos.mk [Room.LanayruMiningFacility, Room.FireSanctuary, Room.EarthTemple, Room.Start, Room.MiniBoss, Room.Empty, Room.Sandship, Room.Skyview, Room.AncientCistern] 4 Direction.Down, 22),
  (RoomAndPos.mk [Room.LanayruMiningFacility, Room.FireSanctuary, Room.EarthTemple, Room.Start, Room.MiniBoss, Room.AncientCistern, Room.Sandship, Room.Skyview, Room.Empty] 4 Direction.Down, 22),
  (RoomAndPos.mk [Room.LanayruMiningFacility, Room.FireSanctuary, Room.EarthTemple, Room.Start, Room.MiniBoss, Room.AncientCistern, Room.Sandship, Room.Empty, Room.Skyview] 4 Direction.Down, 22),
  (RoomAndPos.mk [Room.LanayruMiningFacility, Room.FireSanctuary, Room.EarthTemple, Room.Start, Room.MiniBoss, Room.AncientCistern, Room.Empty, Room.Sandship, Room.Skyview] 4 Direction.Down, 22),
  (RoomAndPos.mk [Room.LanayruMiningFacility, Room.FireSanctuary, Room.EarthTemple, Room.Empty, Room.MiniBoss, Room.AncientCistern, Room.Start, Room.Sandship, Room.Skyview] 4 Direction.Down, 22),
  (RoomAndPos.mk [Room.Empty, Room.FireSanctuary, Room.EarthTemple, Room.LanayruMiningFacility, Room.MiniBoss, Room.AncientCistern, Room.Start, Room.Sandship, Room.Skyview] 4 Direction.Down, 22),
  (RoomAndPos.mk [Room.FireSanctuary, Room.Empty, Room.EarthTemple, Room.LanayruMiningFacility, Room.MiniBoss, Room.AncientCistern, Room.Start, Room.Sandship, Room.Skyview] 4 Direction.Down, 22),
  (RoomAndPos.mk [Room.FireSanctuary, Room.EarthTemple, Room.Empty, Room.LanayruMiningFacility, Room.MiniBoss, Room.AncientCistern, Room.Start, Room.Sandship, Room.Skyview] 4 Direction.Down, 22),
  (RoomAndPos.mk [Room.FireSanctuary, Room.EarthTemple, Room.AncientCistern, Room.LanayruMiningFacility, Room.MiniBoss, Room.Empty, Room.Start, Room.Sandship, Room.Skyview] 4 Direction.Down, 22),
  (RoomAndPos.mk [Room.FireSanctuary, Room.EarthTemple, Room.AncientCistern, Room.LanayruMiningFacility, Room.MiniBoss, Room.Skyview, Room.Start, Room.Sandship, Room.Empty] 4 Direction.Down, 22),
  (RoomAndPos.mk [Room.FireSanctuary, Room.EarthTemple, Room.AncientCistern, Room.LanayruMiningFacility, Room.MiniBoss, Room.Skyview, Room.Start, Room.Empty, Room.Sandship] 4 Direction.Down, 22),
  (RoomAndPos.mk [Room.FireSanctuary, Room.EarthTemple, Room.AncientCistern, Room.LanayruMiningFacility, Room.MiniBoss, Room.Skyview, Room.Empty, Room.Start, Room.Sandship] 4 Direction.Down, 23),
  (RoomAndPos.mk [Room.FireSanctuary, Room.EarthTemple, Room.AncientCistern, Room.Empty, Room.MiniBoss, Room.Skyview, Room.LanayruMiningFacility, Room.Start, Room.Sandship] 4 Direction.Down, 23),
  (RoomAndPos.mk [Room.Empty, Room.EarthTemple, Room.AncientCistern, Room.FireSanctuary, Room.MiniBoss, Room.Skyview, Room.LanayruMiningFacility, Room.Start, Room.Sandship] 4 Direction.Down, 23),
  (RoomAndPos.mk [Room.EarthTemple, Room.Empty, Room.AncientCistern, Room.FireSanctuary, Room.MiniBoss, Room.Skyview, Room.LanayruMiningFacility, Room.Start, Room.Sandship] 4 Direction.Down, 23),
  (RoomAndPos.mk [Room.EarthTemple, Room.AncientCistern, Room.Empty, Room.FireSanctuary, Room.MiniBoss, Room.Skyview, Room.LanayruMiningFacility, Room.Start, Room.Sandship] 4 Direction.Down, 23),
  (RoomAndPos.mk [Room.EarthTemple, Room.AncientCistern, Room.Skyview, Room.FireSanctuary, Room.MiniBoss, Room.Empty, Room.LanayruMiningFacility, Room.Start, Room.Sandship] 4 Direction.Down, 23),
  (RoomAndPos.mk [Room.EarthTemple, Room.AncientCistern, Room.Skyview, Room.FireSanctuary, Room.MiniBoss, Room.Sandship, Room.LanayruMiningFacility, Room.Start, Room.Empty] 4 Direction.Down, 23),
  (RoomAndPos.mk [Room.EarthTemple, Room.AncientCistern, Room.Skyview, Room.FireSanctuary, Room.MiniBoss, Room.Sandship, Room.LanayruMiningFacility, Room.Empty, Room.Start] 4 Direction.Down, 23)]

/-- The unreachable-entrance set at the loop. -/
def cycleUnreach : List Entrance := [Entrance.SkyviewLeft, Entrance.SkyviewUp]

def cycleSt : SearchSt := SearchSt.mk cycleMemo cycleUnreach

def cycleRpA : RoomAndPos := RoomAndPos.mk cycleRoomsA 4 Direction.Down

def cycleRpB : RoomAndPos := RoomAndPos.mk cycleRoomsB 4 Direction.Down

/-! ## Helper lemmas -/

/-- One period step at looping state A: with at least two fuel levels the
call at A reduces to the call at B one level deeper (the `ReachMoverStart`,
`ReachMoverLanayruMiningFacility`, `ReachMoverEarthTemple`, `MoveUp` and
`MoveDown` operators fail, the `ReachMoverMiniBoss` and `MoveLeft` children
are pruned by the memo table without touching the state, and `MoveRight`
leads to state B).  Pure computation. -/
theorem cycle_step_A (k : Nat) :
    verify_rec 40 (k + 2) cycleSt cycleRpA 28 =
      match verify_rec 40 (k + 1) cycleSt cycleRpB 23 with
      | .fuelOut => .fuelOut
      | .panicked => .panicked
      | .ok true st2 => .ok true st2
      | .ok false st2 => .ok false st2 := rfl

/-- One period step at looping state B: the call at B reduces to the call
back at A one level deeper (children of `ReachMoverLanayruMiningFacility`
and `ReachMoverMiniBoss` are pruned, `MoveLeft` leads back to state A). -/
theorem cycle_step_B (k : Nat) :
    verify_rec 40 (k + 2) cycleSt cycleRpB 23 =
      match verify_rec 40 (k + 1) cycleSt cycleRpA 28 with
      | .fuelOut => .fuelOut
      | .panicked => .panicked
      | .ok true st2 => .ok true st2
      | .ok false st2 => opsLoop (verify_rec 40 (k + 1)) 40 [.MoveDown, .MoveRight] cycleRpB 28 st2
      := rfl

/-- The two looping calls exhaust any amount of recursion fuel. -/
theorem cycle_aux : ∀ n : Nat,
    verify_rec 40 n cycleSt cycleRpA 28 = .fuelOut ∧
    verify_rec 40 n cycleSt cycleRpB 23 = .fuelOut := by
  intro n
  induction n using Nat.strong_induction_on with
  | _ n ih =>
    match n with
    | 0 => exact ⟨rfl, rfl⟩
    | 1 => exact ⟨rfl, rfl⟩
    | k + 2 =>
      have hB := (ih (k + 1) (by omega)).2
      have hA := (ih (k + 1) (by omega)).1
      refine ⟨?_, ?_⟩
      · rw [cycle_step_A, hB]
      · rw [cycle_step_B, hA]

/-! ## Claim theorems -/

/-- Claim C6: `do_move` round-trip — if `do_move(tile, d) = some (t2, d2)` for a
tile of the 3 × 3 grid, then `do_move(t2, d2) = some (tile, d)` and `d2`
is the opposite of `d`. -/
theorem do_move_roundtrip (tile : Nat) (h9 : tile < 9) (d : Direction)
    (t2 : Nat) (d2 : Direction) (h : do_move tile d = some (t2, d2)) :
    do_move t2 d2 = some (tile, d) ∧ d2 = d.opposite := by
  have key : ∀ (t : Fin 9) (d : Direction),
      (match do_move t.val d with
       | some (t2, d2) => decide (do_move t2 d2 = some (t.val, d) ∧ d2 = d.opposite)
       | none => true) = true := by decide
  have := key ⟨tile, h9⟩ d
  simp only [h] at this
  exact of_decide_eq_true this

/-- Witness for C6 at tile 4, direction Up. -/
theorem do_move_roundtrip_witness :
    do_move 4 .Up = some (1, .Down) ∧
    do_move 1 .Down = some (4, .Up) ∧ Direction.Down = Direction.Up.opposite := by
  refine ⟨by decide, ?_⟩
  have h := do_move_roundtrip 4 (by decide) .Up 1 .Down (by decide)
  exact ⟨h.1, h.2⟩

/-- Claim C7: gate monotonicity of the internal room link — growing the gate set
preserves traversability and the successor entrance. -/
theorem traverse_room_monotone (e : Entrance) (g1 g2 : Nat) (r : Entrance)
    (hsub : gatesContain g2 g1 = true) (h : e.traverse_room g1 = some r) :
    e.traverse_room g2 = some r := by
  have key : ∀ m : Nat, gatesContain g1 m = true → gatesContain g2 m = true := by
    intro m hm
    have h1 : g2 &&& g1 = g1 := by simpa [gatesContain] using hsub
    have h2 : g1 &&& m = m := by simpa [gatesContain] using hm
    have : g2 &&& m = m := by
      calc g2 &&& m = g2 &&& (g1 &&& m) := by rw [h2]
        _ = g2 &&& g1 &&& m := by rw [Nat.land_assoc]
        _ = g1 &&& m := by rw [h1]
        _ = m := h2
    simpa [gatesContain]
  cases e <;> simp only [Entrance.traverse_room] at h ⊢ <;>
    first
    | exact h
    | · split at h
        next hg => rw [key _ hg]; exact h
        next => exact absurd h (by simp)

/-- Witness for C7: the Start gate link with gate sets 1 ⊆ 3. -/
theorem traverse_room_monotone_witness :
    gatesContain 3 1 = true ∧
    Entrance.traverse_room .StartRight 1 = some .StartDown ∧
    Entrance.traverse_room .StartRight 3 = some .StartDown :=
  ⟨by decide, by decide,
    traverse_room_monotone .StartRight 1 3 .StartDown (by decide) (by decide)⟩

/-- Claim C8: `to_room_direction` and `from_room_direction` are mutually inverse
over all 15 entrances. -/
theorem entrance_roundtrip :
    (∀ e : Entrance,
      Entrance.from_room_direction e.to_room_direction.1 e.to_room_direction.2 = some e) ∧
    (∀ (r : Room) (d : Direction) (e : Entrance),
      Entrance.from_room_direction r d = some e → e.to_room_direction = (r, d)) := by
  constructor
  · intro e; cases e <;> rfl
  · have key : ∀ (r : Room) (d : Direction),
        (match Entrance.from_room_direction r d with
         | some e => decide (e.to_room_direction = (r, d))
         | none => true) = true := by decide
    intro r d e h
    have := key r d
    simp only [h] at this
    exact of_decide_eq_true this

/-- Witness for C8's inverse direction at (Start, Down). -/
theorem entrance_roundtrip_witness :
    Entrance.to_room_direction .StartDown = (Room.Start, Direction.Down) :=
  entrance_roundtrip.2 Room.Start Direction.Down .StartDown (by decide)

/-- The identity grid of the spec's Scenario A: `Sandship` sits on the
fixed entry tile 7 and `Empty` on tile 8. -/
def identityGrid : List Room :=
  [Room.Start, Room.Skyview, Room.EarthTemple, Room.LanayruMiningFacility,
   Room.MiniBoss, Room.AncientCistern, Room.FireSanctuary, Room.Sandship, Room.Empty]

/-- Claim C9: on the identity grid the entry check fails — `Sandship` has no
`Down` entrance — and `verify_rooms` reports the structural failure for
every chain fuel and every recursion fuel (in particular for recursion
fuel 0, so no search step is ever taken and no search state is built). -/
theorem identityGrid_structural_failure :
    (∀ cf fuel : Nat,
      verify_rooms cf fuel identityGrid = .structuralFailure "no down first room") ∧
    Entrance.from_room_direction Room.Sandship Direction.Down = none :=
  ⟨fun _ _ => rfl, rfl⟩

/-- On `cycleGrid` the structural checks pass (the entry tile holds
`LanayruMiningFacility`, whose `Down` entrance is itself the first
control panel found), so `verify_rooms` hands the whole verdict to the
recursive search started at `(tile 7, Down)` with gates `NON_EMPTY`. -/
theorem verify_rooms_cycleGrid_starts_search (fuel : Nat) :
    verify_rooms 40 fuel cycleGrid =
      match verify_rec 40 fuel ⟨[], allEntrances⟩ ⟨cycleGrid, 7, .Down⟩ 16 with
      | .fuelOut => .fuelOut
      | .panicked => .panicked
      | .ok b _ => if b then .solvable else .unsolvable := rfl

/-- Claim C5, refuted (code bug): the recursion of `verify_rec` is not well-founded.  On
the input grid `cycleGrid` (a permutation of the nine rooms that passes
both structural checks) the search reaches the configuration
`(cycleSt, cycleRpA, gates 28)` — confirmed by replaying the program —
and from there it alternates between states A and B forever.  The first
conjunct shows that call exhausts every recursion fuel; the second shows
`verify_rooms` on `cycleGrid` passes its structural checks and delegates
the verdict entirely to that unbounded recursion. -/
theorem verify_rec_not_wellfounded :
    (∀ n : Nat, verify_rec 40 n cycleSt cycleRpA 28 = .fuelOut) ∧
    (∀ fuel : Nat, verify_rooms 40 fuel cycleGrid =
      match verify_rec 40 fuel ⟨[], allEntrances⟩ ⟨cycleGrid, 7, .Down⟩ 16 with
      | .fuelOut => .fuelOut
      | .panicked => .panicked
      | .ok b _ => if b then .solvable else .unsolvable) :=
  ⟨fun n => (cycle_aux n).1, verify_rooms_cycleGrid_starts_search⟩

theorem visit_acc (cf : Nat) (rooms : List Room) (snap : Nat) :
    ∀ (tile : Nat) (d : Direction) (l0 : List Entrance),
      (followChain visitCheck cf rooms snap tile d l0).1 =
        l0 ++ (followChain visitCheck cf rooms snap tile d []).1 := by
  induction cf with
  | zero => intro tile d l0; simp [followChain]
  | succ cf ih =>
    intro tile d l0
    simp only [followChain, visitCheck]
    cases hf : Entrance.from_room_direction (rooms.getD tile Room.Empty) d with
    | none => simp
    | some pos =>
      simp only [hf]
      cases ht : pos.traverse_room snap with
      | none => simp
      | some pos2 =>
        simp only [ht]
        cases hm : do_move tile pos2.to_room_direction.2 with
        | none => simp
        | some td =>
          obtain ⟨tile2, dir2⟩ := td
          simp only [hm]
          rw [ih tile2 dir2 (l0 ++ [pos] ++ [pos2]), ih tile2 dir2 ([] ++ [pos] ++ [pos2])]
          simp

theorem followChain_scan_eq (cf : Nat) (rooms : List Room) (snap : Nat) :
    ∀ (tile : Nat) (d : Direction) (g0 : Nat) (u : List Entrance),
      followChain scanCheck cf rooms snap tile d (g0, u) =
        ((opensFold (chainVisits cf rooms snap tile d) g0,
          eraseList u (chainVisits cf rooms snap tile d)), none) := by
  induction cf with
  | zero => intro tile d g0 u; simp [followChain, chainVisits, opensFold, eraseList]
  | succ cf ih =>
    intro tile d g0 u
    simp only [followChain, scanCheck, chainVisits, visitCheck]
    cases hf : Entrance.from_room_direction (rooms.getD tile Room.Empty) d with
    | none => simp [opensFold, eraseList]
    | some pos =>
      simp only [hf]
      cases ht : pos.traverse_room snap with
      | none => simp [opensFold, eraseList]
      | some pos2 =>
        simp only [ht]
        cases hm : do_move tile pos2.to_room_direction.2 with
        | none => simp [opensFold, eraseList]
        | some td =>
          obtain ⟨tile2, dir2⟩ := td
          simp only [hm]
          rw [ih]
          rw [visit_acc cf rooms snap tile2 dir2 ([] ++ [pos] ++ [pos2])]
          simp [chainVisits, opensFold, eraseList, List.foldl_append]


/-- Claim C1 (amended): at every call of `verify_rec`, the scan pass walks
the chain from the fixed entry `(tile 7, Down)` — not from the current
Player Position — removes exactly the walk's visited entrances from the
unreachable set, unions the visited gate-openers' bits into the gate set,
and reports Solvable at once when the unreachable set empties.  The two
conjuncts exhibit this on the two immediate-return paths of the call. -/
theorem verify_rec_scan_amended (cf fuel : Nat) (st : SearchSt) (rp : RoomAndPos) (gates : Nat) :
    ((eraseList st.unreachable_entrances (chainVisits cf rp.rooms gates 7 .Down)).isEmpty = true →
      verify_rec cf (fuel + 1) st rp gates =
        .ok true ⟨st.state_to_gate,
          eraseList st.unreachable_entrances (chainVisits cf rp.rooms gates 7 .Down)⟩) ∧
    (∀ stored,
      (eraseList st.unreachable_entrances (chainVisits cf rp.rooms gates 7 .Down)).isEmpty = false →
      memoLookup rp st.state_to_gate = some stored →
      gatesContain stored (opensFold (chainVisits cf rp.rooms gates 7 .Down) gates) = true →
      verify_rec cf (fuel + 1) st rp gates =
        .ok false ⟨st.state_to_gate,
          eraseList st.unreachable_entrances (chainVisits cf rp.rooms gates 7 .Down)⟩) := by
  constructor
  · intro h
    simp only [verify_rec]
    rw [followChain_scan_eq]
    simp [h]
  · intro stored hne hlook hcont
    simp only [verify_rec]
    rw [followChain_scan_eq]
    simp [hne, hlook, hcont]

def scanDemoGrid : List Room :=
  [Room.AncientCistern, Room.Skyview, Room.EarthTemple, Room.LanayruMiningFacility,
   Room.MiniBoss, Room.Empty, Room.FireSanctuary, Room.Start, Room.Sandship]

/-- Claim C1, counterexample to the claim as stated: a reachable search
state whose Player Position is `(tile 0, Up)`.  Chain-Follow from the
player's position visits no entrance at all, so by the claim the single
unreachable entrance `StartDown` would remain and the state would not be
Solvable; the code nevertheless empties the unreachable set (its scan ran
from the fixed entry `(7, Down)`, which reaches `StartDown`) and reports
Solvable. -/
theorem scan_counterexample :
    verify_rec 40 1 ⟨[], [Entrance.StartDown]⟩ ⟨scanDemoGrid, 0, .Up⟩ 16 =
      .ok true ⟨[], []⟩ ∧
    chainVisits 40 scanDemoGrid 16 0 .Up = [] := ⟨by decide, by decide⟩

/-- Claim C1, witness: the amended theorem applied at a concrete pruned
call. -/
theorem scan_amended_witness :
    memoLookup ⟨identityGrid, 0, .Up⟩ [(⟨identityGrid, 0, .Up⟩, 31)] = some 31 ∧
    verify_rec 40 1 ⟨[(⟨identityGrid, 0, .Up⟩, 31)], [Entrance.SandshipLeft]⟩
        ⟨identityGrid, 0, .Up⟩ 16 =
      .ok false ⟨[(⟨identityGrid, 0, .Up⟩, 31)], [Entrance.SandshipLeft]⟩ :=
  ⟨by decide,
    (verify_rec_scan_amended 40 0 ⟨[(⟨identityGrid, 0, .Up⟩, 31)], [Entrance.SandshipLeft]⟩
      ⟨identityGrid, 0, .Up⟩ 16).2 31 (by decide) (by decide) (by decide)⟩


theorem opsLoop_memo_mono (f : SearchSt → RoomAndPos → Nat → RecResult) (cf : Nat)
    (hf : ∀ st rp gates b st2, f st rp gates = .ok b st2 →
      ∀ k v, memoLookup k st.state_to_gate = some v → memoLookup k st2.state_to_gate = some v) :
    ∀ (ops : List Operations) (rp : RoomAndPos) (gates : Nat) (st : SearchSt)
      (b : Bool) (st2 : SearchSt),
      opsLoop f cf ops rp gates st = .ok b st2 →
      ∀ k v, memoLookup k st.state_to_gate = some v →
        memoLookup k st2.state_to_gate = some v := by
  intro ops
  induction ops with
  | nil =>
    intro rp gates st b st2 h k v hv
    simp only [opsLoop] at h
    cases h
    exact hv
  | cons op rest ih =>
    intro rp gates st b st2 h k v hv
    simp only [opsLoop] at h
    cases hop : applyOperation cf op rp gates with
    | panicked => rw [hop] at h; simp at h
    | notApplicable =>
      rw [hop] at h
      exact ih rp gates st b st2 h k v hv
    | applied rp2 =>
      simp only [hop] at h
      cases hc : f st rp2 gates with
      | fuelOut => simp only [hc] at h; cases h
      | panicked => simp only [hc] at h; cases h
      | ok bb st3 =>
        simp only [hc] at h
        have hv3 : memoLookup k st3.state_to_gate = some v := hf st rp2 gates bb st3 hc k v hv
        cases bb with
        | true => cases h; exact hv3
        | false => exact ih rp gates st3 b st2 h k v hv3

theorem verify_rec_memo_mono (cf : Nat) :
    ∀ (fuel : Nat) (st : SearchSt) (rp : RoomAndPos) (gates : Nat) (b : Bool) (st2 : SearchSt),
      verify_rec cf fuel st rp gates = .ok b st2 →
      ∀ k v, memoLookup k st.state_to_gate = some v →
        memoLookup k st2.state_to_gate = some v := by
  intro fuel
  induction fuel with
  | zero => intro st rp gates b st2 h; simp [verify_rec] at h
  | succ fuel ih =>
    intro st rp gates b st2 h k v hv
    simp only [verify_rec] at h
    rw [followChain_scan_eq] at h
    by_cases hemp : (eraseList st.unreachable_entrances
        (chainVisits cf rp.rooms gates 7 .Down)).isEmpty
    · simp only [hemp, if_true] at h
      cases h
      exact hv
    · simp only [hemp, if_false, Bool.false_eq_true] at h
      cases hlook : memoLookup rp st.state_to_gate with
      | some stored =>
        rw [hlook] at h
        by_cases hcont : gatesContain stored
            (opensFold (chainVisits cf rp.rooms gates 7 .Down) gates)
        · simp only [hcont, if_true] at h
          cases h
          exact hv
        · simp only [hcont, if_false, Bool.false_eq_true] at h
          exact opsLoop_memo_mono (verify_rec cf fuel) cf ih allOperations rp stored
            _ b st2 h k v hv
      | none =>
        rw [hlook] at h
        refine opsLoop_memo_mono (verify_rec cf fuel) cf ih allOperations rp _ _ b st2 h k v ?_
        show memoLookup k ((rp, _) :: st.state_to_gate) = some v
        simp only [memoLookup]
        by_cases hk : rp = k
        · subst hk; rw [hv] at hlook; cases hlook
        · simp [hk, hv]


/-- Claim C2 (amended): when the memo holds an entry whose stored gate set
is not a superset of the current one, the call continues exploring with
the *stored* gate set (the current gates are discarded) and the stored
entry is left unchanged — it is never updated to the union.  The second
conjunct follows the whole remaining exploration: whenever the call
returns, the memo still maps this state to the old stored value. -/
theorem memo_occupied_amended (cf fuel : Nat) (st : SearchSt) (rp : RoomAndPos)
    (gates stored : Nat)
    (hlook : memoLookup rp st.state_to_gate = some stored)
    (hne : (eraseList st.unreachable_entrances
      (chainVisits cf rp.rooms gates 7 .Down)).isEmpty = false)
    (hns : gatesContain stored
      (opensFold (chainVisits cf rp.rooms gates 7 .Down) gates) = false) :
    verify_rec cf (fuel + 1) st rp gates =
      opsLoop (verify_rec cf fuel) cf allOperations rp stored
        ⟨st.state_to_gate,
         eraseList st.unreachable_entrances (chainVisits cf rp.rooms gates 7 .Down)⟩ ∧
    (∀ b st2, verify_rec cf (fuel + 1) st rp gates = .ok b st2 →
      memoLookup rp st2.state_to_gate = some stored) := by
  have heq : verify_rec cf (fuel + 1) st rp gates =
      opsLoop (verify_rec cf fuel) cf allOperations rp stored
        ⟨st.state_to_gate,
         eraseList st.unreachable_entrances (chainVisits cf rp.rooms gates 7 .Down)⟩ := by
    simp only [verify_rec]
    rw [followChain_scan_eq]
    simp [hne, hlook, hns]
  refine ⟨heq, ?_⟩
  intro b st2 h
  rw [heq] at h
  exact opsLoop_memo_mono (verify_rec cf fuel) cf (verify_rec_memo_mono cf fuel)
    allOperations rp stored _ b st2 h rp stored hlook

def c2Grid : List Room :=
  [Room.Start, Room.Skyview, Room.EarthTemple, Room.LanayruMiningFacility,
   Room.MiniBoss, Room.AncientCistern, Room.FireSanctuary, Room.Empty, Room.Sandship]

def c2Rp : RoomAndPos := ⟨c2Grid, 0, .Up⟩

def c2Memo : List (RoomAndPos × Nat) :=
  [(c2Rp, 1),
   (⟨[Room.Start, Room.Skyview, Room.EarthTemple, Room.LanayruMiningFacility,
      Room.MiniBoss, Room.AncientCistern, Room.FireSanctuary, Room.Sandship, Room.Empty],
     0, .Up⟩, 31),
   (⟨[Room.Start, Room.Skyview, Room.EarthTemple, Room.LanayruMiningFacility,
      Room.Empty, Room.AncientCistern, Room.FireSanctuary, Room.MiniBoss, Room.Sandship],
     0, .Up⟩, 31),
   (⟨[Room.Start, Room.Skyview, Room.EarthTemple, Room.LanayruMiningFacility,
      Room.MiniBoss, Room.AncientCistern, Room.Empty, Room.FireSanctuary, Room.Sandship],
     0, .Up⟩, 31)]

def c2St : SearchSt := ⟨c2Memo, [Entrance.SkyviewLeft]⟩

/-- Claim C2, counterexample to the claim as stated: a concrete occupied,
non-superset lookup (stored 1, current 8).  The claim predicts the stored
entry becomes the union 9; after the call the memo still holds 1. -/
theorem memo_not_updated_counterexample :
    verify_rec 40 2 c2St c2Rp 8 = .ok false ⟨c2Memo, [Entrance.SkyviewLeft]⟩ ∧
    memoLookup c2Rp c2Memo = some 1 ∧ (1 : Nat) ||| 8 ≠ 1 :=
  ⟨by decide, by decide, by decide⟩

/-- Claim C2, witness: the amended theorem applied at the same concrete
configuration. -/
theorem memo_occupied_amended_witness :
    memoLookup c2Rp c2St.state_to_gate = some 1 ∧
    verify_rec 40 2 c2St c2Rp 8 =
      opsLoop (verify_rec 40 1) 40 allOperations c2Rp 1 ⟨c2Memo, [Entrance.SkyviewLeft]⟩ :=
  ⟨by decide,
    (memo_occupied_amended 40 1 c2St c2Rp 8 1 (by decide) (by decide) (by decide)).1⟩


theorem reachOperation_applied_iff (cf : Nat) (target : Entrance) (rp : RoomAndPos)
    (gates : Nat) (t : Nat) :
    reachOperation cf target rp gates = .applied ⟨rp.rooms, t, .Down⟩ ↔
      followBothFind cf rp.rooms gates rp.pos_tile rp.pos_direction target = some t := by
  unfold reachOperation
  cases h : followBothFind cf rp.rooms gates rp.pos_tile rp.pos_direction target with
  | none => simp
  | some t2 => simp [RoomAndPos.mk.injEq, eq_comm]

def c3Grid : List Room :=
  [Room.Start, Room.AncientCistern, Room.Skyview, Room.EarthTemple,
   Room.LanayruMiningFacility, Room.MiniBoss, Room.FireSanctuary, Room.Sandship, Room.Empty]

/-- Claim C3, counterexample to the claim as stated, in two parts.
For room Start: `follow_both` finds Start's panel-hosting entrance
`StartRight` (the only Start entrance with `has_control_panel`), yet the
operator fails — it searches for `StartDown` instead, which is locked.
For room MiniBoss: the operator succeeds at the panel entrance
`MiniBossLeft` but sets the player's facing to `Down`, not that
entrance's canonical direction `Left`. -/
theorem reach_operator_counterexample :
    applyOperation 40 .ReachMoverStart ⟨c3Grid, 0, .Right⟩ 16 = .notApplicable ∧
    followBothFind 40 c3Grid 16 0 .Right .StartRight = some 0 ∧
    Entrance.has_control_panel .StartRight = true ∧
    Entrance.has_control_panel .StartDown = false ∧
    applyOperation 40 .ReachMoverMiniBoss ⟨c3Grid, 5, .Down⟩ 16 = .applied ⟨c3Grid, 5, .Down⟩ ∧
    Entrance.to_room_direction .MiniBossLeft = (Room.MiniBoss, Direction.Left) :=
  ⟨by decide, by decide, by decide, by decide, by decide, by decide⟩

/-- Claim C3 (amended): each Panel-Reach operator succeeds exactly when
`follow_both` from the current Player Position finds its hard-coded
target entrance — `StartDown`, `LanayruMiningFacilityDown`,
`EarthTempleDown`, `MiniBossLeft` — and on success the Player Position
becomes `(found tile, Down)` always.  The targets for the latter three
rooms are panel-hosting entrances, but Start's target `StartDown` is not
(Start's panel is `StartRight`), and for MiniBoss the direction `Down`
is not the found entrance's canonical direction `Left`. -/
theorem reach_operator_amended :
    (∀ (cf : Nat) (rp : RoomAndPos) (gates t : Nat),
      (applyOperation cf .ReachMoverStart rp gates = .applied ⟨rp.rooms, t, .Down⟩ ↔
        followBothFind cf rp.rooms gates rp.pos_tile rp.pos_direction .StartDown = some t) ∧
      (applyOperation cf .ReachMoverLanayruMiningFacility rp gates =
          .applied ⟨rp.rooms, t, .Down⟩ ↔
        followBothFind cf rp.rooms gates rp.pos_tile rp.pos_direction
          .LanayruMiningFacilityDown = some t) ∧
      (applyOperation cf .ReachMoverEarthTemple rp gates = .applied ⟨rp.rooms, t, .Down⟩ ↔
        followBothFind cf rp.rooms gates rp.pos_tile rp.pos_direction
          .EarthTempleDown = some t) ∧
      (applyOperation cf .ReachMoverMiniBoss rp gates = .applied ⟨rp.rooms, t, .Down⟩ ↔
        followBothFind cf rp.rooms gates rp.pos_tile rp.pos_direction
          .MiniBossLeft = some t)) ∧
    Entrance.has_control_panel .StartDown = false ∧
    Entrance.has_control_panel .StartRight = true ∧
    Entrance.has_control_panel .LanayruMiningFacilityDown = true ∧
    Entrance.has_control_panel .EarthTempleDown = true ∧
    Entrance.has_control_panel .MiniBossLeft = true ∧
    Entrance.to_room_direction .MiniBossLeft = (Room.MiniBoss, Direction.Left) ∧
    Entrance.to_room_direction .LanayruMiningFacilityDown =
      (Room.LanayruMiningFacility, Direction.Down) ∧
    Entrance.to_room_direction .EarthTempleDown = (Room.EarthTemple, Direction.Down) :=
  ⟨fun cf rp gates t =>
    ⟨reachOperation_applied_iff cf .StartDown rp gates t,
     reachOperation_applied_iff cf .LanayruMiningFacilityDown rp gates t,
     reachOperation_applied_iff cf .EarthTempleDown rp gates t,
     reachOperation_applied_iff cf .MiniBossLeft rp gates t⟩,
   by decide, by decide, by decide, by decide, by decide, by decide, by decide, by decide⟩


theorem listSwap_getElem? (l : List Room) (i j : Nat) (hi : i < l.length) (hj : j < l.length) :
    (listSwap l i j)[i]? = l[j]? ∧ (listSwap l i j)[j]? = l[i]? ∧
    ∀ k, k ≠ i → k ≠ j → (listSwap l i j)[k]? = l[k]? := by
  unfold listSwap
  refine ⟨?_, ?_, ?_⟩
  · by_cases h : j = i
    · subst h
      simp [hj, List.getD_eq_getElem?_getD]
    · rw [List.getElem?_set_ne h]
      simp [hi, hj, List.getD_eq_getElem?_getD]
  · have hj1 : j < (l.set i (l.getD j Room.Empty)).length := by simpa using hj
    rw [List.getElem?_set_self hj1]
    simp [hi, List.getD_eq_getElem?_getD]
  · intro k hki hkj
    rw [List.getElem?_set_ne (fun h => hkj h.symm), List.getElem?_set_ne (fun h => hki h.symm)]

theorem moveOperation_characterized (rp : RoomAndPos) (d : Direction) (e : Nat)
    (hfind : rp.rooms.findIdx? (· == Room.Empty) = some e) :
    (∀ t d2, do_move e d = some (t, d2) →
      (t ≠ rp.pos_tile → moveOperation rp d =
        .applied ⟨listSwap rp.rooms t e, rp.pos_tile, rp.pos_direction⟩) ∧
      (t = rp.pos_tile → moveOperation rp d = .notApplicable)) ∧
    (do_move e d = none → moveOperation rp d = .notApplicable) := by
  unfold moveOperation
  simp only [hfind]
  constructor
  · intro t d2 hdm
    simp only [hdm]
    constructor <;> intro ht <;> simp [ht]
  · intro h
    simp only [h]

/-- Claim C4 (amended): the Move operator for direction `d` locates the
tile holding Empty and takes that tile's neighbor in the direction
*opposite* to `d` (the room that slides in direction `d` into the blank).
If the neighbor exists and is not the player's tile the two tiles are
swapped (second conjunct, with the swap characterized element-wise in the
fourth conjunct); otherwise the operator is inapplicable. -/
theorem move_operator_amended :
    (∀ (cf : Nat) (rp : RoomAndPos) (gates : Nat),
      applyOperation cf .MoveUp rp gates = moveOperation rp Direction.Up.opposite ∧
      applyOperation cf .MoveLeft rp gates = moveOperation rp Direction.Left.opposite ∧
      applyOperation cf .MoveDown rp gates = moveOperation rp Direction.Down.opposite ∧
      applyOperation cf .MoveRight rp gates = moveOperation rp Direction.Right.opposite) ∧
    (∀ (rp : RoomAndPos) (d : Direction) (e : Nat),
      rp.rooms.findIdx? (· == Room.Empty) = some e →
      (∀ t d2, do_move e d = some (t, d2) →
        (t ≠ rp.pos_tile → moveOperation rp d =
          .applied ⟨listSwap rp.rooms t e, rp.pos_tile, rp.pos_direction⟩) ∧
        (t = rp.pos_tile → moveOperation rp d = .notApplicable)) ∧
      (do_move e d = none → moveOperation rp d = .notApplicable)) ∧
    (∀ (l : List Room) (i j : Nat), i < l.length → j < l.length →
      (listSwap l i j)[i]? = l[j]? ∧ (listSwap l i j)[j]? = l[i]? ∧
      ∀ k, k ≠ i → k ≠ j → (listSwap l i j)[k]? = l[k]?) :=
  ⟨fun _ _ _ => ⟨rfl, rfl, rfl, rfl⟩,
   fun rp d e hfind => moveOperation_characterized rp d e hfind,
   fun l i j hi hj => listSwap_getElem? l i j hi hj⟩

def c4Grid : List Room :=
  [Room.Start, Room.Skyview, Room.EarthTemple, Room.LanayruMiningFacility,
   Room.Empty, Room.AncientCistern, Room.FireSanctuary, Room.Sandship, Room.MiniBoss]

/-- Claim C4, counterexample to the claim as stated: with Empty on tile 4
the claim says `MoveUp` swaps with tile 4's neighbor in direction Up,
tile 1; the code swaps with tile 7, the neighbor in direction Down. -/
theorem move_operator_counterexample :
    do_move 4 .Up = some (1, .Down) ∧
    applyOperation 40 .MoveUp ⟨c4Grid, 0, .Up⟩ 16 =
      .applied ⟨[Room.Start, Room.Skyview, Room.EarthTemple, Room.LanayruMiningFacility,
        Room.Sandship, Room.AncientCistern, Room.FireSanctuary, Room.Empty, Room.MiniBoss],
        0, .Up⟩ ∧
    (c4Grid.set 4 (c4Grid.getD 1 Room.Empty)).set 1 (c4Grid.getD 4 Room.Empty) ≠
      [Room.Start, Room.Skyview, Room.EarthTemple, Room.LanayruMiningFacility,
       Room.Sandship, Room.AncientCistern, Room.FireSanctuary, Room.Empty, Room.MiniBoss] :=
  ⟨by decide, by decide, by decide⟩

/-- Claim C4, witness: the amended theorem applied to `MoveUp` on a
concrete grid with Empty on tile 4. -/
theorem move_operator_amended_witness :
    applyOperation 40 .MoveUp ⟨c4Grid, 0, .Up⟩ 16 =
      moveOperation ⟨c4Grid, 0, .Up⟩ Direction.Up.opposite ∧
    moveOperation ⟨c4Grid, 0, .Up⟩ .Down = .applied ⟨listSwap c4Grid 7 4, 0, .Up⟩ ∧
    (listSwap c4Grid 7 4)[7]? = c4Grid[4]? := by
  refine ⟨(move_operator_amended.1 40 ⟨c4Grid, 0, .Up⟩ 16).1, ?_, ?_⟩
  · exact ((move_operator_amended.2.1 ⟨c4Grid, 0, .Up⟩ .Down 4 (by decide)).1 7 .Up
      (by decide)).1 (by decide)
  · exact (move_operator_amended.2.2 c4Grid 7 4 (by decide) (by decide)).1


theorem listSwap_perm (l : List Room) (i j : Nat) (hi : i < l.length) (hj : j < l.length) :
    (listSwap l i j).Perm l := by
  rw [List.perm_iff_count]
  intro b
  unfold listSwap
  have hj1 : j < (l.set i (l.getD j Room.Empty)).length := by simpa using hj
  rw [List.count_set _ _ _ _ hj1, List.count_set _ _ _ _ hi]
  have hgetj : (l.set i (l.getD j Room.Empty))[j] = l[j] := by
    by_cases h : i = j
    · subst h
      simp [List.getD_eq_getElem?_getD, List.getElem?_eq_getElem hj]
    · rw [List.getElem_set_ne h]
  have hgd : l.getD j Room.Empty = l[j] := by
    simp [List.getD_eq_getElem?_getD, List.getElem?_eq_getElem hj]
  have hgdi : l.getD i Room.Empty = l[i] := by
    simp [List.getD_eq_getElem?_getD, List.getElem?_eq_getElem hi]
  rw [hgetj, hgd, hgdi]
  have hci : l[i] = b → 1 ≤ l.count b := fun h =>
    List.count_pos_iff.mpr (h ▸ List.getElem_mem hi)
  have e1 : (if (l[i] == b) = true then (1 : Nat) else 0) ≤ l.count b := by
    by_cases hib : l[i] = b
    · simpa [hib] using hci hib
    · simp [hib]
  omega

theorem reachOperation_rooms (cf : Nat) (target : Entrance) (rp : RoomAndPos)
    (gates : Nat) (rp2 : RoomAndPos)
    (h : reachOperation cf target rp gates = .applied rp2) : rp2.rooms = rp.rooms := by
  unfold reachOperation at h
  cases hf : followBothFind cf rp.rooms gates rp.pos_tile rp.pos_direction target with
  | none => rw [hf] at h; cases h
  | some t => rw [hf] at h; cases h; rfl

theorem do_move_lt (e : Nat) (he : e < 9) (d : Direction) (t : Nat) (d2 : Direction)
    (h : do_move e d = some (t, d2)) : t < 9 := by
  have key : ∀ (e : Fin 9) (d : Direction),
      (match do_move e.val d with
       | some (t, _) => decide (t < 9)
       | none => true) = true := by decide
  have := key ⟨e, he⟩ d
  simp only [h] at this
  exact of_decide_eq_true this

theorem findIdx_empty_lt (l : List Room) (e : Nat)
    (h : l.findIdx? (· == Room.Empty) = some e) : e < l.length := by
  have := List.findIdx?_eq_some_iff_getElem.mp h
  exact this.1

theorem moveOperation_perm (rp : RoomAndPos) (d : Direction) (rp2 : RoomAndPos)
    (hlen : rp.rooms.length = 9)
    (h : moveOperation rp d = .applied rp2) : rp2.rooms.Perm rp.rooms := by
  unfold moveOperation at h
  cases hfind : rp.rooms.findIdx? (· == Room.Empty) with
  | none => simp only [hfind] at h; cases h
  | some e =>
    simp only [hfind] at h
    cases hdm : do_move e d with
    | none => simp only [hdm] at h; cases h
    | some td =>
      obtain ⟨t, d2⟩ := td
      simp only [hdm] at h
      by_cases ht : t = rp.pos_tile
      · simp only [ht, if_true] at h; cases h
      · simp only [ht, if_false] at h
        cases h
        have he : e < rp.rooms.length := findIdx_empty_lt rp.rooms e hfind
        have ht9 : t < rp.rooms.length := by
          rw [hlen]; exact do_move_lt e (hlen ▸ he) d t d2 hdm
        exact listSwap_perm rp.rooms t e ht9 he

theorem applyOperation_perm_aux (cf : Nat) (op : Operations) (rp : RoomAndPos)
    (gates : Nat) (rp2 : RoomAndPos) (hperm : rp.rooms.Perm identityGrid)
    (h : applyOperation cf op rp gates = .applied rp2) : rp2.rooms.Perm rp.rooms := by
  have hlen : rp.rooms.length = 9 := by rw [hperm.length_eq]; rfl
  cases op <;> simp only [applyOperation] at h
  case ReachMoverStart | ReachMoverLanayruMiningFacility | ReachMoverEarthTemple
      | ReachMoverMiniBoss =>
    rw [reachOperation_rooms _ _ _ _ _ h]
  case MoveUp | MoveLeft | MoveDown | MoveRight =>
    exact moveOperation_perm _ _ _ hlen h

theorem applyOperation_no_panic (cf : Nat) (op : Operations) (rp : RoomAndPos)
    (gates : Nat) (hperm : rp.rooms.Perm identityGrid) :
    applyOperation cf op rp gates ≠ .panicked := by
  have hmem : Room.Empty ∈ rp.rooms := hperm.mem_iff.mpr (by decide)
  have hfind : (rp.rooms.findIdx? (· == Room.Empty)).isSome := by
    rw [List.findIdx?_isSome, List.any_eq_true]
    exact ⟨Room.Empty, hmem, by decide⟩
  cases op <;> simp only [applyOperation]
  case ReachMoverStart | ReachMoverLanayruMiningFacility | ReachMoverEarthTemple
      | ReachMoverMiniBoss =>
    unfold reachOperation
    cases followBothFind cf rp.rooms gates rp.pos_tile rp.pos_direction _ <;> simp
  case MoveUp | MoveLeft | MoveDown | MoveRight =>
    unfold moveOperation
    cases hf : rp.rooms.findIdx? (· == Room.Empty) with
    | none => rw [hf] at hfind; cases hfind
    | some e =>
      simp only [hf]
      cases hdm : do_move e _ with
      | none => simp [hdm]
      | some td =>
        obtain ⟨t, d2⟩ := td
        by_cases ht : t = rp.pos_tile <;> simp [hdm, ht]

theorem opsLoop_no_panic (f : SearchSt → RoomAndPos → Nat → RecResult) (cf : Nat)
    (hf : ∀ st rp gates, rp.rooms.Perm identityGrid → f st rp gates ≠ .panicked) :
    ∀ (ops : List Operations) (rp : RoomAndPos) (gates : Nat) (st : SearchSt),
      rp.rooms.Perm identityGrid → opsLoop f cf ops rp gates st ≠ .panicked := by
  intro ops
  induction ops with
  | nil => intro rp gates st hperm h; simp [opsLoop] at h
  | cons op rest ih =>
    intro rp gates st hperm h
    simp only [opsLoop] at h
    cases hop : applyOperation cf op rp gates with
    | panicked => exact applyOperation_no_panic cf op rp gates hperm hop
    | notApplicable =>
      rw [hop] at h
      exact ih rp gates st hperm h
    | applied rp2 =>
      simp only [hop] at h
      have hperm2 : rp2.rooms.Perm identityGrid :=
        (applyOperation_perm_aux cf op rp gates rp2 hperm hop).trans hperm
      cases hc : f st rp2 gates with
      | fuelOut => simp only [hc] at h; cases h
      | panicked => exact hf st rp2 gates hperm2 hc
      | ok bb st3 =>
        simp only [hc] at h
        cases bb with
        | true => cases h
        | false => exact ih rp gates st3 hperm h

theorem verify_rec_no_panic (cf : Nat) :
    ∀ (fuel : Nat) (st : SearchSt) (rp : RoomAndPos) (gates : Nat),
      rp.rooms.Perm identityGrid → verify_rec cf fuel st rp gates ≠ .panicked := by
  intro fuel
  induction fuel with
  | zero => intro st rp gates hperm h; simp [verify_rec] at h
  | succ fuel ih =>
    intro st rp gates hperm h
    simp only [verify_rec] at h
    rw [followChain_scan_eq] at h
    by_cases hemp : (eraseList st.unreachable_entrances
        (chainVisits cf rp.rooms gates 7 .Down)).isEmpty
    · simp only [hemp, if_true] at h; cases h
    · simp only [hemp, if_false, Bool.false_eq_true] at h
      cases hlook : memoLookup rp st.state_to_gate with
      | some stored =>
        rw [hlook] at h
        by_cases hcont : gatesContain stored
            (opensFold (chainVisits cf rp.rooms gates 7 .Down) gates)
        · simp only [hcont, if_true] at h; cases h
        · simp only [hcont, if_false, Bool.false_eq_true] at h
          exact opsLoop_no_panic (verify_rec cf fuel) cf ih allOperations rp stored _ hperm h
      | none =>
        rw [hlook] at h
        exact opsLoop_no_panic (verify_rec cf fuel) cf ih allOperations rp _ _ hperm h


/-- Claim C10: every Grid State produced during the search stays a
permutation of the nine rooms, and the search's lookup of the tile
holding Empty never panics.  First conjunct: the move swap preserves the
room multiset.  Second: every applicable operator produces a child grid
that is a permutation of its parent's.  Third: on any grid that is a
permutation of the nine distinct rooms, `verify_rec` never reaches the
`unwrap` panic, for every fuel and every search state. -/
theorem grid_permutation_invariant :
    (∀ (l : List Room) (i j : Nat), i < l.length → j < l.length → (listSwap l i j).Perm l) ∧
    (∀ (cf : Nat) (op : Operations) (rp : RoomAndPos) (gates : Nat) (rp2 : RoomAndPos),
      rp.rooms.Perm identityGrid → applyOperation cf op rp gates = .applied rp2 →
      rp2.rooms.Perm rp.rooms) ∧
    (∀ (cf fuel : Nat) (st : SearchSt) (rp : RoomAndPos) (gates : Nat),
      rp.rooms.Perm identityGrid → verify_rec cf fuel st rp gates ≠ .panicked) :=
  ⟨listSwap_perm, applyOperation_perm_aux, fun cf fuel => verify_rec_no_panic cf fuel⟩

/-- Claim C10, witness: the invariant applied to a concrete swap and a
concrete one-step search on the identity grid. -/
theorem grid_permutation_invariant_witness :
    (listSwap identityGrid 7 8).Perm identityGrid ∧
    verify_rec 40 1 ⟨[], allEntrances⟩ ⟨identityGrid, 7, .Down⟩ 16 ≠ .panicked :=
  ⟨grid_permutation_invariant.1 identityGrid 7 8 (by decide) (by decide),
   grid_permutation_invariant.2.2 40 1 ⟨[], allEntrances⟩ ⟨identityGrid, 7, .Down⟩ 16
     (by decide)⟩

end Skykeep
